import Mathlib

/-!
Verification of the credential-and-token lifecycle core of go-reasonable-api.

The Go services, repositories and SQL queries are shallowly embedded:
the database is an explicit in-memory state (lists of rows), each sqlc
query becomes a pure function on that state, and each service method
becomes a state-passing function.  Nondeterministic inputs of the real
system (current time, freshly generated random tokens and ids, and
infrastructure failures of individual database or broker calls) are
supplied explicitly through environment records, so every definition is
executable on concrete inputs.

Modelling choices:
- time.Time is modelled as Nat (an absolute instant); time.Duration as Nat.
- uuid.UUID is modelled as Nat.
- sha256 hashing (services.HashToken) is modelled as an injective tagging
  function on strings; the claims depend only on determinism and injectivity.
- bcrypt.GenerateFromPassword / CompareHashAndPassword are modelled as a
  deterministic tagging function and its matching check; the claims depend
  only on the match / mismatch distinction, not on salts or cost.
- eris wrapped errors are modelled as a base sentinel plus a list of wrap
  messages; eris.Is(err, sentinel) is base equality, matching the Go
  comparison-by-code semantics described in app/errors.
-/

/-- Base error sentinels of app/errors plus the infrastructure cases
(sql.ErrNoRows and generic database/broker failures). -/
inductive ErrBase where
  | invalidCredentials
  | invalidToken
  | tokenExpired
  | tokenRevoked
  | tokenAlreadyUsed
  | invalidResetToken
  | invalidVerificationToken
  | userNotFound
  | deletionAlreadyScheduled
  | emailAlreadyExists
  | emailAlreadyVerified
  | sqlNoRows
  | infra (msg : String)
deriving DecidableEq, Repr

/-- An error value: a base sentinel together with the eris wrap messages
added around it.  eris.Is compares by base. -/
structure Err where
  base : ErrBase
  wraps : List String := []
deriving DecidableEq, Repr

/-- eris.Wrap err msg. -/
def wrapErr (msg : String) (e : Err) : Err :=
  { e with wraps := msg :: e.wraps }

/-- A genuine infrastructure (database or broker) failure. -/
def dbFailure (msg : String) : Err :=
  { base := ErrBase.infra msg, wraps := [] }

def errInvalidCredentials : Err := { base := ErrBase.invalidCredentials }

def errInvalidToken : Err := { base := ErrBase.invalidToken }

def errTokenExpired : Err := { base := ErrBase.tokenExpired }

def errTokenRevoked : Err := { base := ErrBase.tokenRevoked }

def errTokenAlreadyUsed : Err := { base := ErrBase.tokenAlreadyUsed }

def errInvalidResetToken : Err := { base := ErrBase.invalidResetToken }

def errUserNotFound : Err := { base := ErrBase.userNotFound }

def errDeletionAlreadyScheduled : Err := { base := ErrBase.deletionAlreadyScheduled }

/-- Row of the users table (db/sqlcgen User). -/
structure User where
  id : Nat
  name : String
  email : String
  passwordHash : String
  emailVerifiedAt : Option Nat := none
  deletionScheduledAt : Option Nat := none
  createdAt : Nat := 0
  updatedAt : Nat := 0
deriving DecidableEq, Repr

/-- Row of the auth_tokens table (db/sqlcgen AuthToken). -/
structure AuthToken where
  id : Nat
  userId : Nat
  tokenHash : String
  expiresAt : Nat
  revokedAt : Option Nat := none
  createdAt : Nat := 0
deriving DecidableEq, Repr

/-- Row of the password_resets table (db/sqlcgen PasswordReset). -/
structure PasswordReset where
  id : Nat
  userId : Nat
  tokenHash : String
  expiresAt : Nat
  usedAt : Option Nat := none
  createdAt : Nat := 0
deriving DecidableEq, Repr

/-- Row of the email_verifications table (db/sqlcgen EmailVerification). -/
structure EmailVerification where
  id : Nat
  userId : Nat
  tokenHash : String
  expiresAt : Nat
  usedAt : Option Nat := none
  createdAt : Nat := 0
deriving DecidableEq, Repr

/-- The four tables of the persisted schema. -/
structure DBState where
  users : List User := []
  authTokens : List AuthToken := []
  passwordResets : List PasswordReset := []
  emailVerifications : List EmailVerification := []
deriving DecidableEq, Repr

/-- An email task dispatched through the Task Dispatcher
(tasks.EmailPayload, reduced to the fields the claims mention). -/
structure EmailTask where
  recipient : String
  template : String
deriving DecidableEq, Repr

/-- services.HashToken: sha256 hex digest, modelled as injective tagging. -/
def hashToken (token : String) : String :=
  "sha256:" ++ token

/-- bcrypt.GenerateFromPassword, modelled deterministically. -/
def bcryptGenerate (password : String) : String :=
  "bcrypt:" ++ password

/-- bcrypt.CompareHashAndPassword: true iff the hash matches the password. -/
def bcryptCompare (hash password : String) : Bool :=
  hash == bcryptGenerate password

/-- GetUserByEmail: SELECT * FROM users WHERE email = $1. -/
def getUserByEmail (s : DBState) (email : String) : Option User :=
  s.users.find? (fun u => u.email == email)

/-- GetUserByID: SELECT * FROM users WHERE id = $1. -/
def getUserById (s : DBState) (id : Nat) : Option User :=
  s.users.find? (fun u => u.id == id)

/-- GetAuthTokenByHash: SELECT * FROM auth_tokens WHERE token_hash = $1. -/
def getAuthTokenByHash (s : DBState) (tokenHash : String) : Option AuthToken :=
  s.authTokens.find? (fun t => t.tokenHash == tokenHash)

/-- GetPasswordResetByTokenHash: SELECT * FROM password_resets WHERE token_hash = $1. -/
def getPasswordResetByTokenHash (s : DBState) (tokenHash : String) : Option PasswordReset :=
  s.passwordResets.find? (fun r => r.tokenHash == tokenHash)

/-- UpdateUserPassword: UPDATE users SET password_hash = $1, updated_at = $2 WHERE id = $3. -/
def updateUserPassword (s : DBState) (userId : Nat) (passwordHash : String) (now : Nat) : DBState :=
  { s with users := s.users.map (fun u =>
      if u.id = userId then { u with passwordHash := passwordHash, updatedAt := now } else u) }

/-- ScheduleUserDeletion: UPDATE users SET deletion_scheduled_at = $1, updated_at = $2 WHERE id = $3. -/
def scheduleUserDeletion (s : DBState) (userId scheduledAt now : Nat) : DBState :=
  { s with users := s.users.map (fun u =>
      if u.id = userId then { u with deletionScheduledAt := some scheduledAt, updatedAt := now } else u) }

/-- CancelUserDeletion: UPDATE users SET deletion_scheduled_at = NULL, updated_at = $1 WHERE id = $2. -/
def cancelUserDeletion (s : DBState) (userId now : Nat) : DBState :=
  { s with users := s.users.map (fun u =>
      if u.id = userId then { u with deletionScheduledAt := none, updatedAt := now } else u) }

/-- MarkPasswordResetUsed: UPDATE password_resets SET used_at = $1 WHERE id = $2. -/
def markPasswordResetUsed (s : DBState) (id now : Nat) : DBState :=
  { s with passwordResets := s.passwordResets.map (fun r =>
      if r.id = id then { r with usedAt := some now } else r) }

/-- InvalidateAllPasswordResetsForUser:
UPDATE password_resets SET used_at = $1 WHERE user_id = $2 AND used_at IS NULL. -/
def invalidateAllPasswordResetsForUser (s : DBState) (userId now : Nat) : DBState :=
  { s with passwordResets := s.passwordResets.map (fun r =>
      if r.userId = userId ∧ r.usedAt = none then { r with usedAt := some now } else r) }

/-- RevokeAuthTokenByHash: UPDATE auth_tokens SET revoked_at = $1 WHERE token_hash = $2. -/
def revokeAuthTokenByHash (s : DBState) (tokenHash : String) (now : Nat) : DBState :=
  { s with authTokens := s.authTokens.map (fun t =>
      if t.tokenHash = tokenHash then { t with revokedAt := some now } else t) }

/-- RevokeAllAuthTokensForUser:
UPDATE auth_tokens SET revoked_at = $1 WHERE user_id = $2 AND revoked_at IS NULL. -/
def revokeAllAuthTokensForUser (s : DBState) (userId now : Nat) : DBState :=
  { s with authTokens := s.authTokens.map (fun t =>
      if t.userId = userId ∧ t.revokedAt = none then { t with revokedAt := some now } else t) }

/-- DeleteExpiredOrRevokedAuthTokens:
DELETE FROM auth_tokens WHERE expires_at < $1 OR revoked_at IS NOT NULL.
The function returns the rows that survive the delete. -/
def deleteExpiredOrRevokedAuthTokens (now : Nat) (l : List AuthToken) : List AuthToken :=
  l.filter (fun t => decide (now ≤ t.expiresAt) && t.revokedAt.isNone)

/-- DeleteExpiredOrUsedPasswordResets:
DELETE FROM password_resets WHERE expires_at < $1 OR used_at IS NOT NULL. -/
def deleteExpiredOrUsedPasswordResets (now : Nat) (l : List PasswordReset) : List PasswordReset :=
  l.filter (fun r => decide (now ≤ r.expiresAt) && r.usedAt.isNone)

/-- DeleteExpiredOrUsedEmailVerifications:
DELETE FROM email_verifications WHERE expires_at < $1 OR used_at IS NOT NULL. -/
def deleteExpiredOrUsedEmailVerifications (now : Nat) (l : List EmailVerification) : List EmailVerification :=
  l.filter (fun v => decide (now ≤ v.expiresAt) && v.usedAt.isNone)

/-- DeleteScheduledUsers:
DELETE FROM users WHERE deletion_scheduled_at IS NOT NULL AND deletion_scheduled_at <= $1. -/
def deleteScheduledUsers (now : Nat) (l : List User) : List User :=
  l.filter (fun u =>
    match u.deletionScheduledAt with
    | none => true
    | some d => decide (now < d))

/-- services.DefaultAuthTokenTTL = 365 * 24 * time.Hour, in seconds. -/
def DefaultAuthTokenTTL : Nat := 365 * 24 * 3600

/-- viper default auth.auth_token_ttl = "0" (support/config Load). -/
def configDefaultAuthTokenTTL : Nat := 0

/-- viper default auth.password_reset_token_ttl = "1h" (support/config Load). -/
def configDefaultPasswordResetTokenTTL : Nat := 3600

/-- viper default auth.email_confirmation_token_ttl = "24h" (support/config Load). -/
def configDefaultEmailConfirmationTokenTTL : Nat := 86400

/-- The TTL actually applied by SessionService.generateToken:
if the configured ttl is 0 it falls back to DefaultAuthTokenTTL. -/
def effectiveAuthTokenTTL (configured : Nat) : Nat :=
  if configured = 0 then DefaultAuthTokenTTL else configured

/-- expiresAt := now.Add(ttl) inside SessionService.generateToken. -/
def authTokenExpiresAt (now configured : Nat) : Nat :=
  now + effectiveAuthTokenTTL configured

/-- Outcome of the closure fn passed to TxManager.RunInTx. -/
inductive FnOutcome where
  | ok
  | err (e : Err)
  | panics (msg : String)
deriving DecidableEq, Repr

/-- What happened to the sql.Tx by the time RunInTx finished. -/
inductive TxFate where
  | notStarted
  | committed
  | rolledBack
  | rollbackFailed
  | commitFailed
  | leftOpen
deriving DecidableEq, Repr

/-- How control left RunInTx: a normal return (with an optional error) or a
propagating panic. -/
inductive RunOutcome where
  | ret (e : Option Err)
  | panicked (msg : String)
deriving DecidableEq, Repr

/-- Infrastructure faults for one RunInTx call. -/
structure TxEnv where
  beginFails : Bool := false
  commitFails : Bool := false
  rollbackFails : Bool := false
deriving DecidableEq, Repr

/-- support/db TxManager.RunInTx: begin; run fn; on fn error roll back
(wrapping the original error if the rollback itself fails); on fn success
commit.  The Go implementation has no deferred recover, so a panic in fn
unwinds through RunInTx without any Rollback call: the transaction is left
open and the panic propagates. -/
def runInTx (env : TxEnv) (fn : FnOutcome) : RunOutcome × TxFate :=
  if env.beginFails then
    (RunOutcome.ret (some (wrapErr "failed to begin transaction" (dbFailure "begin"))), TxFate.notStarted)
  else
    match fn with
    | FnOutcome.ok =>
        if env.commitFails then
          (RunOutcome.ret (some (wrapErr "failed to commit transaction" (dbFailure "commit"))), TxFate.commitFailed)
        else
          (RunOutcome.ret none, TxFate.committed)
    | FnOutcome.err e =>
        if env.rollbackFails then
          (RunOutcome.ret (some (wrapErr "rollback also failed" e)), TxFate.rollbackFailed)
        else
          (RunOutcome.ret (some e), TxFate.rolledBack)
    | FnOutcome.panics msg =>
        (RunOutcome.panicked msg, TxFate.leftOpen)

/-- SessionService.ValidateToken: hash the raw token, look it up, then fail
invalid / revoked / expired in that order, otherwise return the record. -/
def validateToken (s : DBState) (now : Nat) (token : String) : Except Err AuthToken :=
  let tokenHash := hashToken token
  match getAuthTokenByHash s tokenHash with
  | none => Except.error errInvalidToken
  | some tok =>
    if tok.revokedAt ≠ none then Except.error errTokenRevoked
    else if now > tok.expiresAt then Except.error errTokenExpired
    else Except.ok tok

/-- Per-call environment of SessionService.Create / generateToken: current
time, configured ttl, the freshly generated raw token and row id, and the
infrastructure failure oracles of the individual calls. -/
structure SessionCreateEnv where
  now : Nat
  authTokenTTL : Nat := 0
  newRawToken : String := "raw"
  newTokenId : Nat := 1000
  genTokenFails : Bool := false
  createTokenFails : Bool := false
  cancelDeletionFails : Bool := false
deriving DecidableEq, Repr

/-- SessionService.generateToken: generate a random token, hash it, compute
the expiry from the configured ttl (falling back to DefaultAuthTokenTTL when
the ttl is 0) and insert the auth token row. -/
def sessionGenerateToken (env : SessionCreateEnv) (s : DBState) (userId : Nat) :
    DBState × Except Err String :=
  if env.genTokenFails then
    (s, Except.error (wrapErr "failed to generate secure token" (dbFailure "entropy")))
  else
    let tokenHash := hashToken env.newRawToken
    let expiresAt := authTokenExpiresAt env.now env.authTokenTTL
    if env.createTokenFails then
      (s, Except.error (wrapErr "failed to create auth token" (dbFailure "insert auth token")))
    else
      ({ s with authTokens := s.authTokens ++
          [{ id := env.newTokenId, userId := userId, tokenHash := tokenHash,
             expiresAt := expiresAt, revokedAt := none, createdAt := env.now }] },
       Except.ok env.newRawToken)

/-- SessionService.Create (login): look up the user by email, compare the
password, cancel any scheduled deletion (outside any transaction), then
issue a session token.  Returns the final state and either an error or the
returned user record together with the raw token. -/
def sessionCreate (env : SessionCreateEnv) (s : DBState) (email password : String) :
    DBState × Except Err (User × String) :=
  match getUserByEmail s email with
  | none => (s, Except.error errInvalidCredentials)
  | some user =>
    if bcryptCompare user.passwordHash password = false then
      (s, Except.error errInvalidCredentials)
    else
      let afterCancel : Option (DBState × User) :=
        match user.deletionScheduledAt with
        | some _ =>
            if env.cancelDeletionFails then none
            else some (cancelUserDeletion s user.id env.now,
                       { user with deletionScheduledAt := none })
        | none => some (s, user)
      match afterCancel with
      | none => (s, Except.error (wrapErr "failed to cancel deletion" (dbFailure "cancel deletion")))
      | some (s1, user1) =>
        match sessionGenerateToken env s1 user1.id with
        | (s2, Except.error e) => (s2, Except.error (wrapErr "failed to generate token" e))
        | (s2, Except.ok tok) => (s2, Except.ok (user1, tok))

/-- Per-call environment of PasswordResetService.Create. -/
structure ResetCreateEnv where
  now : Nat
  passwordResetTokenTTL : Nat := 3600
  newRawToken : String := "rawreset"
  newResetId : Nat := 2000
  genFails : Bool := false
  createFails : Bool := false
deriving DecidableEq, Repr

/-- PasswordResetService.Create (requestReset): look up the user by email;
a miss is converted to plain success with no further action; otherwise
generate and persist a reset token and dispatch the reset email task.
Returns (state, optional error, dispatched email tasks). -/
def passwordResetRequest (env : ResetCreateEnv) (s : DBState) (email : String) :
    DBState × Option Err × List EmailTask :=
  match getUserByEmail s email with
  | none => (s, none, [])
  | some user =>
    if env.genFails then
      (s, some (wrapErr "failed to generate reset token" (dbFailure "entropy")), [])
    else
      let tokenHash := hashToken env.newRawToken
      let expiresAt := env.now + env.passwordResetTokenTTL
      if env.createFails then
        (s, some (wrapErr "failed to create password reset" (dbFailure "insert reset")), [])
      else
        ({ s with passwordResets := s.passwordResets ++
            [{ id := env.newResetId, userId := user.id, tokenHash := tokenHash,
               expiresAt := expiresAt, usedAt := none, createdAt := env.now }] },
         none,
         [{ recipient := user.email, template := "password-reset" }])

/-- Infrastructure faults of the four in-transaction sub-steps of
PasswordResetService.Execute. -/
structure ResetExecEnv where
  now : Nat
  hashFails : Bool := false
  updatePasswordFails : Bool := false
  markUsedFails : Bool := false
  invalidateFails : Bool := false
  revokeFails : Bool := false
deriving DecidableEq, Repr

/-- PasswordResetService.Execute (executeReset): hash and look up the reset
token, fail invalid / already-used / expired, hash the new password, then
run the four mutations inside RunInTx.  A failing sub-step makes RunInTx
roll back, so the returned state is the input state and the error is
returned; otherwise all four mutations are applied. -/
def passwordResetExecute (env : ResetExecEnv) (s : DBState) (token newPassword : String) :
    DBState × Option Err :=
  let tokenHash := hashToken token
  match getPasswordResetByTokenHash s tokenHash with
  | none => (s, some errInvalidResetToken)
  | some reset =>
    if reset.usedAt ≠ none then (s, some errTokenAlreadyUsed)
    else if env.now > reset.expiresAt then (s, some errTokenExpired)
    else if env.hashFails then
      (s, some (wrapErr "failed to hash password" (dbFailure "bcrypt")))
    else if env.updatePasswordFails then
      (s, some (wrapErr "failed to update password" (dbFailure "update password")))
    else if env.markUsedFails then
      (s, some (wrapErr "failed to mark password reset as used" (dbFailure "mark used")))
    else if env.invalidateFails then
      (s, some (wrapErr "failed to invalidate password resets for user" (dbFailure "invalidate")))
    else if env.revokeFails then
      (s, some (wrapErr "failed to revoke auth tokens for user" (dbFailure "revoke")))
    else
      let s1 := updateUserPassword s reset.userId (bcryptGenerate newPassword) env.now
      let s2 := markPasswordResetUsed s1 reset.id env.now
      let s3 := invalidateAllPasswordResetsForUser s2 reset.userId env.now
      (revokeAllAuthTokensForUser s3 reset.userId env.now, none)

/-- Per-call environment of UserService.ScheduleDeletion. -/
structure ScheduleDeletionEnv where
  now : Nat
  accountDeletionDelay : Nat := 2592000
  scheduleFails : Bool := false
  revokeFails : Bool := false
deriving DecidableEq, Repr

/-- UserService.ScheduleDeletion: inside one RunInTx, re-read the user,
fail UserNotFound when absent, fail DeletionAlreadyScheduled when already
scheduled, otherwise set deletion_scheduled_at = now + delay and revoke all
of the user's auth tokens; the notification email task is dispatched only
after the transaction committed.  A failing sub-step rolls the transaction
back, so the returned state is the input state and nothing is dispatched. -/
def userScheduleDeletion (env : ScheduleDeletionEnv) (s : DBState) (userId : Nat) :
    DBState × Option Err × List EmailTask :=
  let scheduledAt := env.now + env.accountDeletionDelay
  match getUserById s userId with
  | none => (s, some errUserNotFound, [])
  | some user =>
    if user.deletionScheduledAt ≠ none then
      (s, some errDeletionAlreadyScheduled, [])
    else if env.scheduleFails then
      (s, some (wrapErr "failed to schedule user deletion" (dbFailure "schedule")), [])
    else if env.revokeFails then
      (s, some (wrapErr "failed to revoke all auth tokens for user" (dbFailure "revoke")), [])
    else
      let s1 := scheduleUserDeletion s userId scheduledAt env.now
      (revokeAllAuthTokensForUser s1 userId env.now, none,
       [{ recipient := user.email, template := "account-deletion-scheduled" }])

/-- The purge steps of the cleanup job, in the order they are attempted. -/
inductive CleanupStep where
  | authTokens
  | passwordResets
  | emailVerifications
  | users
deriving DecidableEq, Repr

/-- Infrastructure faults of the four purge calls of one cleanup run. -/
structure CleanupEnv where
  now : Nat
  authFails : Bool := false
  resetFails : Bool := false
  verifFails : Bool := false
  usersFails : Bool := false
deriving DecidableEq, Repr

/-- tasks CleanupTask.Handle: sequentially purge expired-or-revoked auth
tokens, expired-or-used password resets, expired-or-used email
verifications, then overdue users; the first failing step aborts the run
and its wrapped error is returned.  The result carries the final state,
the steps attempted in order, and the optional error. -/
def cleanupHandle (env : CleanupEnv) (s : DBState) :
    DBState × List CleanupStep × Option Err :=
  if env.authFails then
    (s, [CleanupStep.authTokens],
     some (wrapErr "failed to cleanup auth tokens" (dbFailure "auth purge")))
  else
    let s1 := { s with authTokens := deleteExpiredOrRevokedAuthTokens env.now s.authTokens }
    if env.resetFails then
      (s1, [CleanupStep.authTokens, CleanupStep.passwordResets],
       some (wrapErr "failed to cleanup password reset tokens" (dbFailure "reset purge")))
    else
      let s2 := { s1 with passwordResets := deleteExpiredOrUsedPasswordResets env.now s1.passwordResets }
      if env.verifFails then
        (s2, [CleanupStep.authTokens, CleanupStep.passwordResets, CleanupStep.emailVerifications],
         some (wrapErr "failed to cleanup email verification tokens" (dbFailure "verif purge")))
      else
        let s3 := { s2 with emailVerifications := deleteExpiredOrUsedEmailVerifications env.now s2.emailVerifications }
        if env.usersFails then
          (s3, [CleanupStep.authTokens, CleanupStep.passwordResets,
                CleanupStep.emailVerifications, CleanupStep.users],
           some (wrapErr "failed to delete scheduled users" (dbFailure "user purge")))
        else
          ({ s3 with users := deleteScheduledUsers env.now s3.users },
           [CleanupStep.authTokens, CleanupStep.passwordResets,
            CleanupStep.emailVerifications, CleanupStep.users],
           none)

/-- Sample user with no scheduled deletion, password secret123. -/
def aliceUser : User :=
  { id := 1, name := "Alice", email := "alice@example.com",
    passwordHash := bcryptGenerate "secret123" }

/-- Sample user with a deletion already scheduled at time 500. -/
def aliceScheduled : User :=
  { aliceUser with deletionScheduledAt := some 500 }

/-- An active session token of user 1, expiring at 1000. -/
def activeToken : AuthToken :=
  { id := 5, userId := 1, tokenHash := hashToken "sess", expiresAt := 1000 }

/-- A fresh, unused password reset token of user 1, expiring at 100. -/
def freshReset : PasswordReset :=
  { id := 10, userId := 1, tokenHash := hashToken "reset", expiresAt := 100 }

/-- Sample database: Alice with one active session and one fresh reset. -/
def stateA : DBState :=
  { users := [aliceUser], authTokens := [activeToken], passwordResets := [freshReset] }

/-- Sample database: Alice has a pending deletion and one active session. -/
def stateB : DBState :=
  { users := [aliceScheduled], authTokens := [activeToken] }

/-- Claim C2: RunInTx commits on fn success, rolls back on fn error
returning the same error (a rollback failure is reported by wrapping the
original error, never masking it), and on an fn panic rolls the
transaction back before re-raising.  The code violates the panic clause:
TxManager.RunInTx has no deferred recover, so a panicking fn unwinds
through it without any Rollback call and the transaction is left open,
contradicting the function's own doc comment. -/
theorem runInTx_panics_not_rolled_back :
    runInTx {} (FnOutcome.panics "boom") = (RunOutcome.panicked "boom", TxFate.leftOpen) ∧
    TxFate.leftOpen ≠ TxFate.rolledBack ∧
    (∀ e : Err, runInTx {} (FnOutcome.err e) = (RunOutcome.ret (some e), TxFate.rolledBack)) ∧
    runInTx {} FnOutcome.ok = (RunOutcome.ret none, TxFate.committed) ∧
    (∀ e : Err, (runInTx { rollbackFails := true } (FnOutcome.err e)).1 =
        RunOutcome.ret (some (wrapErr "rollback also failed" e)) ∧
        (wrapErr "rollback also failed" e).base = e.base) := by
  refine ⟨rfl, by decide, fun e => rfl, rfl, fun e => ⟨rfl, rfl⟩⟩

/-- Claim C8 counterexample: with the auth-token ttl unset (the viper
default "0"), a session token issued at time 0 carries the finite expiry
DefaultAuthTokenTTL = one year, and validates as TokenExpired one second
after that — so tokens issued under the unset default do NOT have
unlimited lifetime. -/
theorem authTokenTTL_unset_token_expires :
    authTokenExpiresAt 0 configDefaultAuthTokenTTL = 31536000 ∧
    validateToken
      { authTokens := [{ id := 1, userId := 1, tokenHash := hashToken "tok",
                         expiresAt := authTokenExpiresAt 0 configDefaultAuthTokenTTL }] }
      31536001 "tok" = Except.error errTokenExpired := by
  constructor
  · rfl
  · rfl

/-- Claim C8 (amended): when the auth-token ttl configuration is unset
(its default "0"), session tokens are issued with a one-year expiry
(DefaultAuthTokenTTL = 365 days), while the password-reset token ttl
defaults to 1 hour and the email-verification token ttl defaults to
24 hours. -/
theorem tokenTTLDefaults :
    (∀ now : Nat, authTokenExpiresAt now configDefaultAuthTokenTTL = now + 365 * 24 * 3600) ∧
    configDefaultPasswordResetTokenTTL = 3600 ∧
    configDefaultEmailConfirmationTokenTTL = 86400 := by
  refine ⟨fun now => rfl, rfl, rfl⟩

/-- ValidateToken returns InvalidToken exactly on a lookup miss. -/
theorem validateToken_invalid_iff (s : DBState) (now : Nat) (token : String) :
    validateToken s now token = Except.error errInvalidToken ↔
      getAuthTokenByHash s (hashToken token) = none := by
  cases h : getAuthTokenByHash s (hashToken token) with
  | none => simp [validateToken, h]
  | some tok =>
      by_cases hr : tok.revokedAt = none
      · by_cases he : tok.expiresAt < now
        · simp [validateToken, h, hr, he, gt_iff_lt, errInvalidToken, errTokenExpired]
        · simp [validateToken, h, hr, he, gt_iff_lt]
      · simp [validateToken, h, hr, errInvalidToken, errTokenRevoked]

/-- ValidateToken returns TokenRevoked exactly when the stored token
exists and is revoked. -/
theorem validateToken_revoked_iff (s : DBState) (now : Nat) (token : String) :
    validateToken s now token = Except.error errTokenRevoked ↔
      ∃ tok, getAuthTokenByHash s (hashToken token) = some tok ∧ tok.revokedAt ≠ none := by
  cases h : getAuthTokenByHash s (hashToken token) with
  | none => simp [validateToken, h, errInvalidToken, errTokenRevoked]
  | some tok =>
      by_cases hr : tok.revokedAt = none
      · by_cases he : tok.expiresAt < now
        · simp [validateToken, h, hr, he, gt_iff_lt, errTokenExpired, errTokenRevoked]
        · simp [validateToken, h, hr, he, gt_iff_lt]
      · simp [validateToken, h, hr]

/-- ValidateToken returns TokenExpired exactly when the stored token
exists, is not revoked, and its expiry is strictly before now. -/
theorem validateToken_expired_iff (s : DBState) (now : Nat) (token : String) :
    validateToken s now token = Except.error errTokenExpired ↔
      ∃ tok, getAuthTokenByHash s (hashToken token) = some tok ∧
        tok.revokedAt = none ∧ tok.expiresAt < now := by
  cases h : getAuthTokenByHash s (hashToken token) with
  | none => simp [validateToken, h, errInvalidToken, errTokenExpired]
  | some tok =>
      by_cases hr : tok.revokedAt = none
      · by_cases he : tok.expiresAt < now
        · simp [validateToken, h, hr, he, gt_iff_lt]
        · simp [validateToken, h, hr, he, gt_iff_lt]
      · simp [validateToken, h, hr, errTokenExpired, errTokenRevoked]

/-- ValidateToken returns the stored record when it exists, is not
revoked and is not expired. -/
theorem validateToken_ok_of (s : DBState) (now : Nat) (token : String) (tok : AuthToken)
    (h : getAuthTokenByHash s (hashToken token) = some tok)
    (hr : tok.revokedAt = none) (he : ¬ tok.expiresAt < now) :
    validateToken s now token = Except.ok tok := by
  simp [validateToken, h, hr, he, gt_iff_lt]

/-- Claim C3: ValidateToken fails InvalidToken iff no auth token with the
hash exists, TokenRevoked iff the stored token exists and is revoked,
TokenExpired iff it exists, is not revoked and its expiry is in the past;
otherwise it returns the stored record.  In particular an expired,
unrevoked token yields TokenExpired, never InvalidToken. -/
theorem validateToken_taxonomy (s : DBState) (now : Nat) (token : String) :
    (validateToken s now token = Except.error errInvalidToken ↔
      getAuthTokenByHash s (hashToken token) = none) ∧
    (validateToken s now token = Except.error errTokenRevoked ↔
      ∃ tok, getAuthTokenByHash s (hashToken token) = some tok ∧ tok.revokedAt ≠ none) ∧
    (validateToken s now token = Except.error errTokenExpired ↔
      ∃ tok, getAuthTokenByHash s (hashToken token) = some tok ∧
        tok.revokedAt = none ∧ tok.expiresAt < now) ∧
    (∀ tok, getAuthTokenByHash s (hashToken token) = some tok → tok.revokedAt = none →
      ¬ tok.expiresAt < now → validateToken s now token = Except.ok tok) :=
  ⟨validateToken_invalid_iff s now token, validateToken_revoked_iff s now token,
   validateToken_expired_iff s now token, fun tok h hr he =>
      validateToken_ok_of s now token tok h hr he⟩

/-- Witness for C3: in the sample database a lookup miss yields
InvalidToken, obtained through validateToken_taxonomy. -/
theorem validateToken_taxonomy_witness :
    getAuthTokenByHash stateA (hashToken "nope") = none ∧
    validateToken stateA 5 "nope" = Except.error errInvalidToken := by
  refine ⟨by decide, (validateToken_taxonomy stateA 5 "nope").1.mpr (by decide)⟩

/-- Claim C5: SessionService.Create fails with the single
InvalidCredentials error both when no user has the given email and when
the user exists but the password does not match the stored hash, so the
two failure cases are indistinguishable by error value. -/
theorem sessionCreate_invalid_credentials (env : SessionCreateEnv) (s : DBState)
    (email password : String) :
    (getUserByEmail s email = none →
      (sessionCreate env s email password).2 = Except.error errInvalidCredentials) ∧
    (∀ user, getUserByEmail s email = some user →
      bcryptCompare user.passwordHash password = false →
      (sessionCreate env s email password).2 = Except.error errInvalidCredentials) := by
  constructor
  · intro h
    simp [sessionCreate, h]
  · intro user hu hb
    simp [sessionCreate, hu, hb]

/-- Witness for C5: in the sample database both an unknown email and a
wrong password for Alice produce exactly InvalidCredentials. -/
theorem sessionCreate_invalid_credentials_witness :
    (getUserByEmail stateA "nobody@example.com" = none ∧
      (sessionCreate { now := 5 } stateA "nobody@example.com" "x").2 =
        Except.error errInvalidCredentials) ∧
    (getUserByEmail stateA "alice@example.com" = some aliceUser ∧
      bcryptCompare aliceUser.passwordHash "wrong" = false ∧
      (sessionCreate { now := 5 } stateA "alice@example.com" "wrong").2 =
        Except.error errInvalidCredentials) := by
  refine ⟨⟨by decide, ?_⟩, ⟨by decide, by decide, ?_⟩⟩
  · exact (sessionCreate_invalid_credentials { now := 5 } stateA "nobody@example.com" "x").1
      (by decide)
  · exact (sessionCreate_invalid_credentials { now := 5 } stateA "alice@example.com" "wrong").2
      aliceUser (by decide) (by decide)

/-- After the UpdateUserPassword map, every row with the target id carries
the new password hash. -/
theorem updatePassword_users_mem (l : List User) (uid now : Nat) (ph : String) :
    ∀ u ∈ l.map (fun u0 =>
        if u0.id = uid then { u0 with passwordHash := ph, updatedAt := now } else u0),
      u.id = uid → u.passwordHash = ph := by
  intro u hm hid
  rcases List.mem_map.1 hm with ⟨u0, hu0, rfl⟩
  by_cases h : u0.id = uid
  · simp [h]
  · simp only [if_neg h] at hid ⊢
    exact absurd hid h

/-- After the CancelUserDeletion map, every row with the target id has no
scheduled deletion. -/
theorem cancel_users_mem (l : List User) (uid now : Nat) :
    ∀ u ∈ l.map (fun u0 =>
        if u0.id = uid then { u0 with deletionScheduledAt := none, updatedAt := now } else u0),
      u.id = uid → u.deletionScheduledAt = none := by
  intro u hm hid
  rcases List.mem_map.1 hm with ⟨u0, hu0, rfl⟩
  by_cases h : u0.id = uid
  · simp [h]
  · simp only [if_neg h] at hid ⊢
    exact absurd hid h

/-- After the ScheduleUserDeletion map, every row with the target id is
scheduled at the given instant. -/
theorem schedule_users_mem (l : List User) (uid schedAt now : Nat) :
    ∀ u ∈ l.map (fun u0 =>
        if u0.id = uid then { u0 with deletionScheduledAt := some schedAt, updatedAt := now } else u0),
      u.id = uid → u.deletionScheduledAt = some schedAt := by
  intro u hm hid
  rcases List.mem_map.1 hm with ⟨u0, hu0, rfl⟩
  by_cases h : u0.id = uid
  · simp [h]
  · simp only [if_neg h] at hid ⊢
    exact absurd hid h

/-- After the RevokeAllAuthTokensForUser map, every token of the target
user is revoked. -/
theorem revokeAll_tokens_mem (l : List AuthToken) (uid now : Nat) :
    ∀ t ∈ l.map (fun t0 =>
        if t0.userId = uid ∧ t0.revokedAt = none then { t0 with revokedAt := some now } else t0),
      t.userId = uid → t.revokedAt ≠ none := by
  intro t hm hid
  rcases List.mem_map.1 hm with ⟨t0, ht0, rfl⟩
  by_cases h : t0.userId = uid ∧ t0.revokedAt = none
  · simp [h]
  · simp only [if_neg h] at hid ⊢
    intro hnone
    exact h ⟨hid, hnone⟩

/-- After the InvalidateAllPasswordResetsForUser map, every reset of the
target user is consumed. -/
theorem invalidateAll_resets_mem (l : List PasswordReset) (uid now : Nat) :
    ∀ r ∈ l.map (fun r0 =>
        if r0.userId = uid ∧ r0.usedAt = none then { r0 with usedAt := some now } else r0),
      r.userId = uid → r.usedAt ≠ none := by
  intro r hm hid
  rcases List.mem_map.1 hm with ⟨r0, hr0, rfl⟩
  by_cases h : r0.userId = uid ∧ r0.usedAt = none
  · simp [h]
  · simp only [if_neg h] at hid ⊢
    intro hnone
    exact h ⟨hid, hnone⟩

/-- After MarkPasswordResetUsed followed by
InvalidateAllPasswordResetsForUser, the row with the marked id carries
used_at = now. -/
theorem markUsed_then_invalidate_mem (l : List PasswordReset) (rid uid now : Nat) :
    ∀ r ∈ (l.map (fun r0 => if r0.id = rid then { r0 with usedAt := some now } else r0)).map
        (fun r0 => if r0.userId = uid ∧ r0.usedAt = none then { r0 with usedAt := some now } else r0),
      r.id = rid → r.usedAt = some now := by
  intro r hm hid
  rw [List.map_map] at hm
  rcases List.mem_map.1 hm with ⟨r0, hr0, rfl⟩
  by_cases h : r0.id = rid
  · simp [Function.comp, h]
  · have hidp : r0.id = rid := by
      by_cases h2 : r0.userId = uid ∧ r0.usedAt = none
      · simpa [Function.comp, if_neg h, h2] using hid
      · simpa [Function.comp, if_neg h, h2] using hid
    exact absurd hidp h

/-- generateToken never touches the users table. -/
theorem sessionGenerateToken_users (env : SessionCreateEnv) (s : DBState) (userId : Nat) :
    ((sessionGenerateToken env s userId).1).users = s.users := by
  unfold sessionGenerateToken
  by_cases h1 : env.genTokenFails
  · simp [h1]
  · by_cases h2 : env.createTokenFails
    · simp [h1, h2]
    · simp [h1, h2]

/-- Claim C4: requestReset for an email with no matching user returns
plain success and performs no token creation or dispatch, and its returned
value coincides with the returned value for an email whose user exists
(absent infrastructure failure), so the caller cannot distinguish the two
cases from the result. -/
theorem passwordResetRequest_enum_resistance (env : ResetCreateEnv) (s : DBState) :
    (∀ email, getUserByEmail s email = none →
      passwordResetRequest env s email = (s, none, [])) ∧
    (∀ email user, getUserByEmail s email = some user →
      env.genFails = false → env.createFails = false →
      (passwordResetRequest env s email).2.1 = none) ∧
    (∀ email1 email2 user, getUserByEmail s email1 = none →
      getUserByEmail s email2 = some user →
      env.genFails = false → env.createFails = false →
      (passwordResetRequest env s email1).2.1 = (passwordResetRequest env s email2).2.1) := by
  refine ⟨?_, ?_, ?_⟩
  · intro email h
    simp [passwordResetRequest, h]
  · intro email user h hg hc
    simp [passwordResetRequest, h, hg, hc]
  · intro email1 email2 user h1 h2 hg hc
    have a1 : (passwordResetRequest env s email1).2.1 = none := by
      simp [passwordResetRequest, h1]
    have a2 : (passwordResetRequest env s email2).2.1 = none := by
      simp [passwordResetRequest, h2, hg, hc]
    rw [a1, a2]

/-- Witness for C4: in the sample database an unknown email returns plain
success with no state change and no dispatched email. -/
theorem passwordResetRequest_enum_resistance_witness :
    getUserByEmail stateA "nobody@example.com" = none ∧
    passwordResetRequest { now := 5 } stateA "nobody@example.com" = (stateA, none, []) := by
  refine ⟨by decide, ?_⟩
  exact (passwordResetRequest_enum_resistance { now := 5 } stateA).1 "nobody@example.com" (by decide)

/-- Claim C7: when a user with a pending deletion logs in successfully,
the deletion is cancelled: the returned user record shows no scheduled
deletion and the stored user row is cleared. -/
theorem sessionCreate_clears_scheduled_deletion (env : SessionCreateEnv) (s : DBState)
    (email password : String) (user : User) (d : Nat)
    (hu : getUserByEmail s email = some user)
    (hd : user.deletionScheduledAt = some d) :
    ∀ u1 tok, (sessionCreate env s email password).2 = Except.ok (u1, tok) →
      u1.deletionScheduledAt = none ∧
      ∀ u2 ∈ (sessionCreate env s email password).1.users,
        u2.id = user.id → u2.deletionScheduledAt = none := by
  intro u1 tok hok
  cases hb : bcryptCompare user.passwordHash password with
  | false =>
      have hv : sessionCreate env s email password = (s, Except.error errInvalidCredentials) := by
        simp [sessionCreate, hu, hb]
      rw [hv] at hok
      cases hok
  | true =>
      cases hcf : env.cancelDeletionFails with
      | true =>
          have hv : sessionCreate env s email password =
              (s, Except.error (wrapErr "failed to cancel deletion" (dbFailure "cancel deletion"))) := by
            simp [sessionCreate, hu, hb, hd, hcf]
          rw [hv] at hok
          cases hok
      | false =>
          rcases hg : sessionGenerateToken env (cancelUserDeletion s user.id env.now) user.id with ⟨s2, r⟩
          cases r with
          | error e =>
              have hv : sessionCreate env s email password =
                  (s2, Except.error (wrapErr "failed to generate token" e)) := by
                simp [sessionCreate, hu, hb, hd, hcf, hg]
              rw [hv] at hok
              cases hok
          | ok tokv =>
              have hv : sessionCreate env s email password =
                  (s2, Except.ok ({ user with deletionScheduledAt := none }, tokv)) := by
                simp [sessionCreate, hu, hb, hd, hcf, hg]
              rw [hv] at hok
              injection hok with hpair
              injection hpair with h1 h2
              constructor
              · rw [← h1]
              · intro u2 hm hid
                rw [hv] at hm
                have hsu : s2.users = (cancelUserDeletion s user.id env.now).users := by
                  have hgen := sessionGenerateToken_users env (cancelUserDeletion s user.id env.now) user.id
                  rw [hg] at hgen
                  exact hgen
                have hm2 : u2 ∈ (cancelUserDeletion s user.id env.now).users := by
                  rw [← hsu]
                  exact hm
                exact cancel_users_mem s.users user.id env.now u2 hm2 hid

/-- Witness for C7: Alice has a pending deletion in the sample database;
logging in with the correct password returns her record with the deletion
cleared. -/
theorem sessionCreate_clears_scheduled_deletion_witness :
    getUserByEmail stateB "alice@example.com" = some aliceScheduled ∧
    aliceScheduled.deletionScheduledAt = some 500 ∧
    (sessionCreate { now := 5 } stateB "alice@example.com" "secret123").2 =
      Except.ok ({ aliceScheduled with deletionScheduledAt := none }, "raw") ∧
    ({ aliceScheduled with deletionScheduledAt := none } : User).deletionScheduledAt = none := by
  refine ⟨by decide, by decide, by rfl, ?_⟩
  exact (sessionCreate_clears_scheduled_deletion { now := 5 } stateB "alice@example.com"
    "secret123" aliceScheduled 500 (by decide) (by decide)
    { aliceScheduled with deletionScheduledAt := none } "raw" (by rfl)).1

/-- Claim C10: on a login with correct credentials for a user with a
pending deletion, the deletion cancellation happens outside any
transaction and before the token is issued, so when token generation or
persistence fails, Create returns an error while the stored user row keeps
deletion_scheduled_at cleared. -/
theorem sessionCreate_cancel_not_rolled_back (env : SessionCreateEnv) (s : DBState)
    (email password : String) (user : User) (d : Nat)
    (hu : getUserByEmail s email = some user)
    (hb : bcryptCompare user.passwordHash password = true)
    (hd : user.deletionScheduledAt = some d)
    (hcf : env.cancelDeletionFails = false)
    (hfail : env.genTokenFails = true ∨ env.createTokenFails = true) :
    (∃ e, (sessionCreate env s email password).2 = Except.error e) ∧
    ∀ u2 ∈ (sessionCreate env s email password).1.users,
      u2.id = user.id → u2.deletionScheduledAt = none := by
  have hg : ∃ e, sessionGenerateToken env (cancelUserDeletion s user.id env.now) user.id =
      (cancelUserDeletion s user.id env.now, Except.error e) := by
    rcases hfail with hf | hf
    · exact ⟨wrapErr "failed to generate secure token" (dbFailure "entropy"),
        by simp [sessionGenerateToken, hf]⟩
    · cases hgen : env.genTokenFails with
      | true => exact ⟨wrapErr "failed to generate secure token" (dbFailure "entropy"),
          by simp [sessionGenerateToken, hgen]⟩
      | false => exact ⟨wrapErr "failed to create auth token" (dbFailure "insert auth token"),
          by simp [sessionGenerateToken, hgen, hf]⟩
  obtain ⟨e, hg⟩ := hg
  have hv : sessionCreate env s email password =
      (cancelUserDeletion s user.id env.now,
       Except.error (wrapErr "failed to generate token" e)) := by
    simp [sessionCreate, hu, hb, hd, hcf, hg]
  rw [hv]
  refine ⟨⟨_, rfl⟩, ?_⟩
  intro u2 hm hid
  exact cancel_users_mem s.users user.id env.now u2 hm hid

/-- Witness for C10: with token generation failing, Alice's login returns
an error while her stored row keeps the deletion cleared. -/
theorem sessionCreate_cancel_not_rolled_back_witness :
    getUserByEmail stateB "alice@example.com" = some aliceScheduled ∧
    bcryptCompare aliceScheduled.passwordHash "secret123" = true ∧
    (∃ e, (sessionCreate { now := 5, genTokenFails := true } stateB
        "alice@example.com" "secret123").2 = Except.error e) := by
  refine ⟨by decide, by decide, ?_⟩
  exact (sessionCreate_cancel_not_rolled_back { now := 5, genTokenFails := true } stateB
    "alice@example.com" "secret123" aliceScheduled 500 (by decide) (by decide) (by decide)
    (by decide) (Or.inl (by decide))).1

/-- Claim C1: for a stored, unused, unexpired reset token, executeReset
runs one transaction that updates the user's password hash, marks this
token used, marks every outstanding reset token of the user used, and
revokes every session token of the user; if any sub-step fails, none of
the mutations survive (the transaction rolls back) and the error is
returned. -/
theorem passwordResetExecute_spec (env : ResetExecEnv) (s : DBState)
    (token newPassword : String) (reset : PasswordReset)
    (hget : getPasswordResetByTokenHash s (hashToken token) = some reset)
    (hunused : reset.usedAt = none)
    (hunexp : ¬ env.now > reset.expiresAt)
    (hhash : env.hashFails = false) :
    (env.updatePasswordFails = false → env.markUsedFails = false →
     env.invalidateFails = false → env.revokeFails = false →
      (passwordResetExecute env s token newPassword).2 = none ∧
      (∀ u ∈ (passwordResetExecute env s token newPassword).1.users,
        u.id = reset.userId → u.passwordHash = bcryptGenerate newPassword) ∧
      (∀ r ∈ (passwordResetExecute env s token newPassword).1.passwordResets,
        r.id = reset.id → r.usedAt = some env.now) ∧
      (∀ r ∈ (passwordResetExecute env s token newPassword).1.passwordResets,
        r.userId = reset.userId → r.usedAt ≠ none) ∧
      (∀ t ∈ (passwordResetExecute env s token newPassword).1.authTokens,
        t.userId = reset.userId → t.revokedAt ≠ none)) ∧
    ((env.updatePasswordFails = true ∨ env.markUsedFails = true ∨
      env.invalidateFails = true ∨ env.revokeFails = true) →
      (passwordResetExecute env s token newPassword).1 = s ∧
      (passwordResetExecute env s token newPassword).2 ≠ none) := by
  constructor
  · intro h1 h2 h3 h4
    have hv : passwordResetExecute env s token newPassword =
        (revokeAllAuthTokensForUser
          (invalidateAllPasswordResetsForUser
            (markPasswordResetUsed
              (updateUserPassword s reset.userId (bcryptGenerate newPassword) env.now)
              reset.id env.now)
            reset.userId env.now)
          reset.userId env.now, none) := by
      simp [passwordResetExecute, hget, hunused, hunexp, hhash, h1, h2, h3, h4, gt_iff_lt]
    rw [hv]
    refine ⟨rfl, ?_, ?_, ?_, ?_⟩
    · intro u hm hid
      have hm2 : u ∈ s.users.map (fun u0 =>
          if u0.id = reset.userId then
            { u0 with passwordHash := bcryptGenerate newPassword, updatedAt := env.now }
          else u0) := hm
      exact updatePassword_users_mem s.users reset.userId env.now
        (bcryptGenerate newPassword) u hm2 hid
    · intro r hm hid
      have hm2 : r ∈ (s.passwordResets.map (fun r0 =>
          if r0.id = reset.id then { r0 with usedAt := some env.now } else r0)).map (fun r0 =>
          if r0.userId = reset.userId ∧ r0.usedAt = none then { r0 with usedAt := some env.now }
          else r0) := hm
      exact markUsed_then_invalidate_mem s.passwordResets reset.id reset.userId env.now r hm2 hid
    · intro r hm hid
      have hm2 : r ∈ (s.passwordResets.map (fun r0 =>
          if r0.id = reset.id then { r0 with usedAt := some env.now } else r0)).map (fun r0 =>
          if r0.userId = reset.userId ∧ r0.usedAt = none then { r0 with usedAt := some env.now }
          else r0) := hm
      exact invalidateAll_resets_mem
        (s.passwordResets.map (fun r0 =>
          if r0.id = reset.id then { r0 with usedAt := some env.now } else r0))
        reset.userId env.now r hm2 hid
    · intro t hm hid
      have hm2 : t ∈ s.authTokens.map (fun t0 =>
          if t0.userId = reset.userId ∧ t0.revokedAt = none then { t0 with revokedAt := some env.now }
          else t0) := hm
      exact revokeAll_tokens_mem s.authTokens reset.userId env.now t hm2 hid
  · intro hfault
    have hval : ∃ e, passwordResetExecute env s token newPassword = (s, some e) := by
      cases h1 : env.updatePasswordFails with
      | true => exact ⟨wrapErr "failed to update password" (dbFailure "update password"),
          by simp [passwordResetExecute, hget, hunused, hunexp, hhash, h1, gt_iff_lt]⟩
      | false =>
        cases h2 : env.markUsedFails with
        | true => exact ⟨wrapErr "failed to mark password reset as used" (dbFailure "mark used"),
            by simp [passwordResetExecute, hget, hunused, hunexp, hhash, h1, h2, gt_iff_lt]⟩
        | false =>
          cases h3 : env.invalidateFails with
          | true => exact ⟨wrapErr "failed to invalidate password resets for user" (dbFailure "invalidate"),
              by simp [passwordResetExecute, hget, hunused, hunexp, hhash, h1, h2, h3, gt_iff_lt]⟩
          | false =>
            cases h4 : env.revokeFails with
            | true => exact ⟨wrapErr "failed to revoke auth tokens for user" (dbFailure "revoke"),
                by simp [passwordResetExecute, hget, hunused, hunexp, hhash, h1, h2, h3, h4, gt_iff_lt]⟩
            | false => exact absurd hfault (by simp [h1, h2, h3, h4])
    obtain ⟨e, he⟩ := hval
    rw [he]
    exact ⟨rfl, by simp⟩

/-- Witness for C1: executing the fresh reset token of the sample database
succeeds with no error. -/
theorem passwordResetExecute_spec_witness :
    getPasswordResetByTokenHash stateA (hashToken "reset") = some freshReset ∧
    freshReset.usedAt = none ∧
    ¬ (50 : Nat) > freshReset.expiresAt ∧
    (passwordResetExecute { now := 50 } stateA "reset" "newpass").2 = none := by
  refine ⟨by decide, by decide, by decide, ?_⟩
  exact ((passwordResetExecute_spec { now := 50 } stateA "reset" "newpass" freshReset
    (by decide) (by decide) (by decide) (by decide)).1 rfl rfl rfl rfl).1

/-- Claim C6: ScheduleDeletion re-reads the user inside the transaction,
fails UserNotFound when absent and DeletionAlreadyScheduled when a
schedule exists, otherwise sets deletion_scheduled_at = now + grace period
and revokes all session tokens; a failing sub-step rolls everything back
and nothing is dispatched, and the notification email is dispatched only
on commit. -/
theorem userScheduleDeletion_spec (env : ScheduleDeletionEnv) (s : DBState) (userId : Nat) :
    (getUserById s userId = none →
      userScheduleDeletion env s userId = (s, some errUserNotFound, [])) ∧
    (∀ user, getUserById s userId = some user → user.deletionScheduledAt ≠ none →
      userScheduleDeletion env s userId = (s, some errDeletionAlreadyScheduled, [])) ∧
    (∀ user, getUserById s userId = some user → user.deletionScheduledAt = none →
      env.scheduleFails = false → env.revokeFails = false →
      (userScheduleDeletion env s userId).2.1 = none ∧
      (∀ u ∈ (userScheduleDeletion env s userId).1.users,
        u.id = userId → u.deletionScheduledAt = some (env.now + env.accountDeletionDelay)) ∧
      (∀ t ∈ (userScheduleDeletion env s userId).1.authTokens,
        t.userId = userId → t.revokedAt ≠ none) ∧
      (userScheduleDeletion env s userId).2.2 =
        [{ recipient := user.email, template := "account-deletion-scheduled" }]) ∧
    ((env.scheduleFails = true ∨ env.revokeFails = true) →
      (userScheduleDeletion env s userId).1 = s ∧
      (userScheduleDeletion env s userId).2.2 = []) ∧
    ((userScheduleDeletion env s userId).2.2 ≠ [] →
      (userScheduleDeletion env s userId).2.1 = none) := by
  refine ⟨?_, ?_, ?_, ?_, ?_⟩
  · intro h
    simp [userScheduleDeletion, h]
  · intro user hu hd
    simp [userScheduleDeletion, hu, hd]
  · intro user hu hd hs hr
    have hv : userScheduleDeletion env s userId =
        (revokeAllAuthTokensForUser
          (scheduleUserDeletion s userId (env.now + env.accountDeletionDelay) env.now)
          userId env.now, none,
         [{ recipient := user.email, template := "account-deletion-scheduled" }]) := by
      simp [userScheduleDeletion, hu, hd, hs, hr]
    rw [hv]
    refine ⟨rfl, ?_, ?_, rfl⟩
    · intro u hm hid
      exact schedule_users_mem s.users userId (env.now + env.accountDeletionDelay) env.now u hm hid
    · intro t hm hid
      exact revokeAll_tokens_mem s.authTokens userId env.now t hm hid
  · intro hfault
    cases hu : getUserById s userId with
    | none => constructor <;> simp [userScheduleDeletion, hu]
    | some user =>
        by_cases hd : user.deletionScheduledAt = none
        · rcases hfault with hf | hf
          · constructor <;> simp [userScheduleDeletion, hu, hd, hf]
          · cases hs : env.scheduleFails with
            | true => constructor <;> simp [userScheduleDeletion, hu, hd, hs]
            | false => constructor <;> simp [userScheduleDeletion, hu, hd, hs, hf]
        · constructor <;> simp [userScheduleDeletion, hu, hd]
  · intro hne
    cases hu : getUserById s userId with
    | none => exact absurd (by simp [userScheduleDeletion, hu]) hne
    | some user =>
        by_cases hd : user.deletionScheduledAt = none
        · cases hs : env.scheduleFails with
          | true => exact absurd (by simp [userScheduleDeletion, hu, hd, hs]) hne
          | false =>
            cases hr : env.revokeFails with
            | true => exact absurd (by simp [userScheduleDeletion, hu, hd, hs, hr]) hne
            | false => simp [userScheduleDeletion, hu, hd, hs, hr]
        · exact absurd (by simp [userScheduleDeletion, hu, hd]) hne

/-- Witness for C6: scheduling deletion for Alice (no prior schedule) in
the sample database succeeds with no error. -/
theorem userScheduleDeletion_spec_witness :
    getUserById stateA 1 = some aliceUser ∧
    aliceUser.deletionScheduledAt = none ∧
    (userScheduleDeletion { now := 5 } stateA 1).2.1 = none := by
  refine ⟨by decide, by decide, ?_⟩
  exact ((userScheduleDeletion_spec { now := 5 } stateA 1).2.2.1 aliceUser
    (by decide) (by decide) rfl rfl).1

/-- Claim C9: one cleanup run purges, in order, expired-or-revoked auth
tokens, expired-or-used reset tokens, expired-or-used verification
tokens, then users whose deletion_scheduled_at is non-null and not after
now; a failing step aborts the remaining steps and returns the error. -/
theorem cleanupHandle_order_and_abort (env : CleanupEnv) (s : DBState) :
    (env.authFails = false → env.resetFails = false → env.verifFails = false →
     env.usersFails = false →
      cleanupHandle env s =
        ({ users := deleteScheduledUsers env.now s.users,
           authTokens := deleteExpiredOrRevokedAuthTokens env.now s.authTokens,
           passwordResets := deleteExpiredOrUsedPasswordResets env.now s.passwordResets,
           emailVerifications := deleteExpiredOrUsedEmailVerifications env.now s.emailVerifications },
         [CleanupStep.authTokens, CleanupStep.passwordResets,
          CleanupStep.emailVerifications, CleanupStep.users], none)) ∧
    (env.authFails = true →
      (cleanupHandle env s).2.1 = [CleanupStep.authTokens] ∧
      (cleanupHandle env s).1 = s ∧
      (cleanupHandle env s).2.2 ≠ none) ∧
    (env.authFails = false → env.resetFails = true →
      (cleanupHandle env s).2.1 = [CleanupStep.authTokens, CleanupStep.passwordResets] ∧
      (cleanupHandle env s).1.passwordResets = s.passwordResets ∧
      (cleanupHandle env s).1.emailVerifications = s.emailVerifications ∧
      (cleanupHandle env s).1.users = s.users ∧
      (cleanupHandle env s).2.2 ≠ none) ∧
    (env.authFails = false → env.resetFails = false → env.verifFails = true →
      (cleanupHandle env s).2.1 =
        [CleanupStep.authTokens, CleanupStep.passwordResets, CleanupStep.emailVerifications] ∧
      (cleanupHandle env s).1.emailVerifications = s.emailVerifications ∧
      (cleanupHandle env s).1.users = s.users ∧
      (cleanupHandle env s).2.2 ≠ none) ∧
    (env.authFails = false → env.resetFails = false → env.verifFails = false →
     env.usersFails = true →
      (cleanupHandle env s).2.1 =
        [CleanupStep.authTokens, CleanupStep.passwordResets,
         CleanupStep.emailVerifications, CleanupStep.users] ∧
      (cleanupHandle env s).1.users = s.users ∧
      (cleanupHandle env s).2.2 ≠ none) := by
  refine ⟨?_, ?_, ?_, ?_, ?_⟩
  · intro h1 h2 h3 h4
    simp [cleanupHandle, h1, h2, h3, h4]
  · intro h1
    refine ⟨by simp [cleanupHandle, h1], by simp [cleanupHandle, h1], by simp [cleanupHandle, h1]⟩
  · intro h1 h2
    refine ⟨by simp [cleanupHandle, h1, h2], by simp [cleanupHandle, h1, h2],
      by simp [cleanupHandle, h1, h2], by simp [cleanupHandle, h1, h2],
      by simp [cleanupHandle, h1, h2]⟩
  · intro h1 h2 h3
    refine ⟨by simp [cleanupHandle, h1, h2, h3], by simp [cleanupHandle, h1, h2, h3],
      by simp [cleanupHandle, h1, h2, h3], by simp [cleanupHandle, h1, h2, h3]⟩
  · intro h1 h2 h3 h4
    refine ⟨by simp [cleanupHandle, h1, h2, h3, h4], by simp [cleanupHandle, h1, h2, h3, h4],
      by simp [cleanupHandle, h1, h2, h3, h4]⟩

/-- Witness for C9: a fault-free cleanup run on the sample database
attempts all four steps in order and returns no error. -/
theorem cleanupHandle_order_and_abort_witness :
    (cleanupHandle { now := 50 } stateA).2.2 = none ∧
    (cleanupHandle { now := 50 } stateA).2.1 =
      [CleanupStep.authTokens, CleanupStep.passwordResets,
       CleanupStep.emailVerifications, CleanupStep.users] := by
  have h := (cleanupHandle_order_and_abort { now := 50 } stateA).1 rfl rfl rfl rfl
  rw [h]
  exact ⟨rfl, rfl⟩
